import Mathlib

/-
Shallow embedding of `threeML/plugins/OGIP/eventlist.py`.

Numbers are modelled by `ℚ` (the Python code works on floats; every claim
under scrutiny is about control flow and exact arithmetic identities, not
rounding).  Mutation of `self` is modelled by explicit state passing on the
`EventList` structure; a raised Python exception is modelled by
`StepResult.err e s` where `s` is the state of the object at the moment the
exception is raised (Python leaves all mutations performed before the raise
in place).  External collaborators (`polyfit`, `unbinned_polyfit` from
`event_polynomial`, `np.sqrt`, the parallel-execution configuration flag)
are parameters gathered in the `Externals` structure; per the module
docstring they are consumed as black boxes returning a fitted polynomial
model and its log-likelihood (or failing).
-/

namespace ThreeML

/-- Python exception kinds that the modelled code can raise. -/
inductive ELError where
  /-- `OverLappingIntervals` (a `RuntimeError` subclass) -/
  | overlappingIntervals
  /-- `IndexError` (e.g. `interval_masks[0]` on an empty list, bad list index) -/
  | indexError
  /-- `TypeError` (`self._dead_time[mask]` when `_dead_time` is `None`) -/
  | typeError
  /-- `ValueError` from `np.histogram` when fewer than two bin edges are given -/
  | valueError
  /-- a plain raised `RuntimeError` -/
  | runtimeError
  /-- a failed `assert` statement -/
  | assertionError
  /-- `NotImplementedError` (parallel execution path) -/
  | notImplemented
  /-- failure inside an external fit objective / minimizer -/
  | fitFailure
  deriving DecidableEq

/-- External polynomial model (from `event_polynomial`): exposes definite
integral, integral error, coefficients and coefficient errors.  Consumed as
an opaque value object. -/
structure PolyModel where
  integral : ℚ → ℚ → ℚ
  integral_error : ℚ → ℚ → ℚ
  coefficients : List ℚ
  error : List ℚ

/-- The spectral container built by `get_pha_container` (from `pha.PHAContainer`). -/
structure PHAContainer where
  rates : List ℚ
  rate_errors : Option (List ℚ)
  n_channels : ℕ
  exposure : ℚ
  is_poisson : Bool
  response_file : Option ℕ
  deriving DecidableEq

/-- State of an `EventList` instance: the `__init__` attributes plus every
attribute assigned later by the modelled methods.  Attributes that Python
creates only on first assignment (`_counts`, `_tmin_list`, ...) are modelled
as always-present fields initialised to inert defaults by `EventList.init`;
the modelled methods never read them before writing them, matching the
source. -/
structure EventList where
  arrival_times : List ℚ
  energies : List ℤ
  n_channels : ℕ
  first_channel : ℤ
  dead_time : Option (List ℚ)
  start_time : ℚ
  stop_time : ℚ
  rsp_file : Option ℕ
  user_poly_order : ℤ
  time_selection_exists : Bool
  poly_fit_exists : Bool
  counts : List ℕ
  poly_counts : List ℚ
  poly_count_err : List ℚ
  exposure : ℚ
  total_dead_time : ℚ
  tmin_list : List ℚ
  tmax_list : List ℚ
  active_dead_time : ℚ
  poly_time_selections : List (ℚ × ℚ)
  unbinned : Bool
  optimal_polynomial_grade : ℤ
  polynomials : List PolyModel

/-- Result of running a state-mutating method: `ok` with the new state, or
`err` with the exception kind and the (partially mutated) state the object
holds when the exception propagates. -/
inductive StepResult where
  | ok (s : EventList)
  | err (e : ELError) (s : EventList)

/-- The object state after a method call, whether or not it raised. -/
def StepResult.state : StepResult → EventList
  | .ok s => s
  | .err _ s => s

/-- The exception raised by a method call, if any. -/
def StepResult.errorOf : StepResult → Option ELError
  | .ok _ => none
  | .err e _ => some e

/-- External collaborators of the event-list engine: the two fit objectives
(which may fail, e.g. inside the minimizer), `np.sqrt`, and the
`threeML_config` parallel-execution flag. -/
structure Externals where
  polyfit : List ℚ → List ℕ → ℤ → List ℚ → Except ELError (PolyModel × ℚ)
  unbinned_polyfit : List ℚ → ℤ → List ℚ → List ℚ → ℚ → Except ELError (PolyModel × ℚ)
  sqrt : ℚ → ℚ
  use_parallel : Bool

/-- A Python value passed to the `poly_order` setter: either an `int` or a
value of some other type (on which `type(value) is int` fails). -/
inductive PyValue where
  | int (z : ℤ)
  | nonInt
  deriving DecidableEq

/-- Ceiling on `ℚ` (used to model `np.arange`). -/
def ratCeil (q : ℚ) : ℤ := ⌈q⌉

/-- Model of `np.arange(start, stop, step)` for positive `step`:
`ceil((stop - start) / step)` values `start + k * step`. -/
def arange (start stop step : ℚ) : List ℚ :=
  (List.range (ratCeil ((stop - start) / step)).toNat).map fun k : ℕ => start + (k : ℚ) * step

/-- Model of `np.histogram(events, bins=edges).0`: per-bin counts, each bin
half-open `[e_i, e_(i+1))` except the last which is closed; fewer than two
edges is a `ValueError`. -/
def histogram (events : List ℚ) (edges : List ℚ) : Except ELError (List ℕ) :=
  if edges.length < 2 then .error .valueError
  else .ok ((List.range (edges.length - 1)).map fun i =>
    let lo := edges.getD i 0
    let hi := edges.getD (i + 1) 0
    (events.filter fun e =>
      decide (lo ≤ e) && (if i = edges.length - 2 then decide (e ≤ hi) else decide (e < hi))).length)

/-- Union mask of the per-interval masks `tmin <= t <= tmax` (the code ORs
the per-interval event masks together, starting from the first). -/
def event_in_union (intervals : List (ℚ × ℚ)) (t : ℚ) : Bool :=
  intervals.any fun p => decide (p.1 ≤ t) && decide (t ≤ p.2)

/-- Sum of interval durations `tmax - tmin`. -/
def durations_sum (intervals : List (ℚ × ℚ)) : ℚ :=
  (intervals.map fun p => p.2 - p.1).sum

/-- `dead[mask].sum()` where `mask` is the union mask of `intervals` over
`times` (index-aligned with `dead`). -/
def masked_dead_time_sum (times dead : List ℚ) (intervals : List (ℚ × ℚ)) : ℚ :=
  (((times.zip dead).filter fun p => event_in_union intervals p.1).map Prod.snd).sum

/-- The dead-time correction subtracted from the exposure in
`set_active_time_intervals`: `self._dead_time[time_mask].sum()` when a
dead-time array exists, `0.` otherwise. -/
def total_dead (s : EventList) (intervals : List (ℚ × ℚ)) : ℚ :=
  match s.dead_time with
  | some dead => masked_dead_time_sum s.arrival_times dead intervals
  | none => 0

/-- Per-channel counts of events whose channel tag matches and whose arrival
time is in the union mask, for channels
`range(first_channel, n_channels + first_channel)`. -/
def channel_counts (s : EventList) (intervals : List (ℚ × ℚ)) : List ℕ :=
  (List.range s.n_channels).map fun c =>
    ((s.arrival_times.zip s.energies).filter fun p =>
      (p.2 == s.first_channel + (c : ℤ)) && event_in_union intervals p.1).length

/-- Python list indexing `l[i]`, including negative-index semantics;
out-of-range raises `IndexError`. -/
def py_get {α : Type} (l : List α) (i : ℤ) : Except ELError α :=
  if 0 ≤ i then
    if h : i.toNat < l.length then .ok (l.get ⟨i.toNat, h⟩) else .error .indexError
  else
    if h : ((l.length : ℤ) + i).toNat < l.length then
      if 0 ≤ (l.length : ℤ) + i then .ok (l.get ⟨((l.length : ℤ) + i).toNat, h⟩)
      else .error .indexError
    else .error .indexError

/-- A Python `for` loop that appends `f a` for each `a`, propagating the
first exception (used for the per-channel fit loops and similar). -/
def exceptMapList {α β : Type} (f : α → Except ELError β) : List α → Except ELError (List β)
  | [] => .ok []
  | a :: as =>
    match f a with
    | .error e => .error e
    | .ok b =>
      match exceptMapList f as with
      | .error e => .error e
      | .ok bs => .ok (b :: bs)

/-- `intervals_overlap(tmin, tmax)` (module-level function, lines 1011-1032).
The outer loop body ends in an unconditional `return False`, so only the
first iteration (`i = 0`) ever runs: the function compares the remaining
intervals' bounds against the first interval's open range and returns.  An
empty list falls off the loop and returns `None`, which every caller treats
as falsy, modelled as `false`. -/
def intervals_overlap (tmin tmax : List ℚ) : Bool :=
  match tmin, tmax with
  | this_min :: rest_min, this_max :: rest_max =>
    (rest_min.zip rest_max).any fun q =>
      decide (this_min < q.1 ∧ q.1 < this_max) || decide (this_min < q.2 ∧ q.2 < this_max)
  | _, _ => false

/-- One iteration of the background-integration loop of
`set_active_time_intervals` (lines 179-191): look up the channel's
polynomial (`self._polynomials[chan]`), sum its integrals over the interval
list and take `sqrt` of the quadrature sum of integral errors. -/
def polyChannelStep (s : EventList) (intervals : List (ℚ × ℚ)) (ext : Externals)
    (c : ℕ) : Except ELError (ℚ × ℚ) :=
  (py_get s.polynomials (s.first_channel + (c : ℤ))).map fun poly =>
    ((intervals.map fun p => poly.integral p.1 p.2).sum,
     ext.sqrt ((intervals.map fun p => poly.integral_error p.1 p.2 ^ 2).sum))

/-- The background-integration loop of `set_active_time_intervals` over all
channels. -/
def polyCountsStep (s : EventList) (intervals : List (ℚ × ℚ)) (ext : Externals) :
    Except ELError (List (ℚ × ℚ)) :=
  exceptMapList (polyChannelStep s intervals ext) (List.range s.n_channels)

/-- The `if self._poly_fit_exists:` block of `set_active_time_intervals`
(lines 174-195): when a background fit exists, recompute
`_poly_counts` / `_poly_count_err`; otherwise leave them untouched. -/
def apply_poly_step (s : EventList) (intervals : List (ℚ × ℚ)) (ext : Externals) :
    Except ELError EventList :=
  if s.poly_fit_exists then
    (polyCountsStep s intervals ext).map fun pcs =>
      { s with poly_counts := pcs.map Prod.fst, poly_count_err := pcs.map Prod.snd }
  else .ok s

/-- The state of `set_active_time_intervals` after the flag mutation and
the per-channel count recomputation (lines 129 and 157-166). -/
def active_counts_state (s0 : EventList) (intervals : List (ℚ × ℚ)) : EventList :=
  { s0 with
    time_selection_exists := true
    counts := channel_counts { s0 with time_selection_exists := true } intervals }

/-- `EventList.set_active_time_intervals` (lines 119-218), taking the
already-parsed `(tmin, tmax)` pairs.  Mutation order follows the source:
`_time_selection_exists` is set to `True` first, then the overlap check may
raise, then `_counts`, the optional background integration, and finally the
exposure/dead-time bookkeeping. -/
def set_active_time_intervals (s0 : EventList) (intervals : List (ℚ × ℚ))
    (ext : Externals) : StepResult :=
  let s1 := { s0 with time_selection_exists := true }
  if intervals_overlap (intervals.map Prod.fst) (intervals.map Prod.snd) then
    .err .overlappingIntervals s1
  else if intervals.isEmpty then
    -- `interval_masks[0]` raises IndexError when no interval was given
    .err .indexError s1
  else
    match apply_poly_step (active_counts_state s0 intervals) intervals ext with
    | .error e => .err e (active_counts_state s0 intervals)
    | .ok s3 =>
      let dead := total_dead s3 intervals
      .ok { s3 with
            exposure := durations_sum intervals - dead,
            total_dead_time := dead,
            tmin_list := intervals.map Prod.fst,
            tmax_list := intervals.map Prod.snd,
            active_dead_time := dead }

/-- `EventList._exposure_over_interval` (lines 332-339): duration minus the
dead time of events in `[tmin, tmax]`; indexes `self._dead_time` with no
`None` guard, so a missing dead-time array is a `TypeError`. -/
def _exposure_over_interval (s : EventList) (tmin tmax : ℚ) : Except ELError ℚ :=
  match s.dead_time with
  | none => .error .typeError
  | some dead =>
    .ok ((tmax - tmin) -
      ((((s.arrival_times.zip dead).filter fun p =>
        decide (tmin ≤ p.1) && decide (p.1 ≤ tmax)).map Prod.snd).sum))

/-- The grade-selection arithmetic shared by the binned and unbinned degree
selectors (lines 500-522 and 542-558): `Δ = 2*(LL[d] - LL[d+1])` over
consecutive pairs, then the last index with `Δ >= 9.0` plus one, or `0` when
no index qualifies. -/
def best_grade_from_loglikes (log_likelihoods : List ℚ) : ℕ :=
  let delta_loglike := (log_likelihoods.zip log_likelihoods.tail).map fun p => 2 * (p.1 - p.2)
  match (delta_loglike.enum.filter fun p => decide ((9 : ℚ) ≤ p.2)).getLast? with
  | none => 0
  | some p => p.1 + 1

/-- `EventList._fit_global_and_determine_optimum_grade` (lines 473-522): fit
grades 0..3 with the binned objective on the energy-summed data, then apply
the likelihood-ratio selection. -/
def fit_global_and_determine_optimum_grade (ext : Externals) (cnts : List ℕ)
    (bins : List ℚ) (exposure : List ℚ) : Except ELError ℕ :=
  (exceptMapList
    (fun grade => (ext.polyfit bins cnts (grade : ℤ) exposure).map Prod.snd)
    (List.range 4)).map best_grade_from_loglikes

/-- `EventList._unbinned_fit_global_and_determine_optimum_grade`
(lines 524-558): fit grades 0..3 with the unbinned objective on all
background events, then apply the same likelihood-ratio selection. -/
def unbinned_fit_global_and_determine_optimum_grade (ext : Externals)
    (events : List ℚ) (sels : List (ℚ × ℚ)) (exposure : ℚ) : Except ELError ℕ :=
  (exceptMapList
    (fun grade =>
      (ext.unbinned_polyfit events (grade : ℤ) (sels.map Prod.fst) (sels.map Prod.snd)
        exposure).map Prod.snd)
    (List.range 4)).map best_grade_from_loglikes

/-- The x-values fed to the binned fits: `mean_time[non_zero_mask]`
(`non_zero_mask` keeps bins whose midpoint falls inside the background
interval set, lines 682-691). -/
def masked_mean_time (mean_time : List ℚ) (sels : List (ℚ × ℚ)) : List ℚ :=
  mean_time.filter (event_in_union sels)

/-- A count array indexed like `mean_time`, masked by `non_zero_mask`
(`cnts[non_zero_mask]`). -/
def masked_counts (mean_time : List ℚ) (cnts : List ℕ) (sels : List (ℚ × ℚ)) : List ℕ :=
  ((mean_time.zip cnts).filter fun r => event_in_union sels r.1).map Prod.snd

/-- An exposure array indexed like `mean_time`, masked by `non_zero_mask`
(`exposure_per_bin[non_zero_mask]`). -/
def masked_exposure (mean_time : List ℚ) (exposure : List ℚ) (sels : List (ℚ × ℚ)) : List ℚ :=
  ((mean_time.zip exposure).filter fun r => event_in_union sels r.1).map Prod.snd

/-- `EventList._fit_polynomials` (lines 625-835, sequential path).  Sets
`_poly_fit_exists = True` first; bins the full span into 0.1-wide bins;
computes per-bin exposure through `_exposure_over_interval`; picks the grade
(auto-selected when `_user_poly_order == -1`, the forced order otherwise);
then fits every channel with the binned objective. -/
def _fit_polynomials (s0 : EventList) (ext : Externals) : StepResult :=
  let s := { s0 with poly_fit_exists := true }
  match s.poly_time_selections with
  | [] => .err .indexError s  -- `all_bkg_masks[0]` with no background selection
  | _ :: _ =>
    let sels := s.poly_time_selections
    let total_poly_events := s.arrival_times.filter (event_in_union sels)
    let total_poly_energies :=
      ((s.arrival_times.zip s.energies).filter fun p => event_in_union sels p.1).map Prod.snd
    let these_bins := arange s.start_time s.stop_time (1 / 10)
    match histogram total_poly_events these_bins with
    | .error e => .err e s
    | .ok cnts_all =>
      let mean_time := (List.range (these_bins.length - 1)).map fun i =>
        (these_bins.getD i 0 + these_bins.getD (i + 1) 0) / 2
      match exceptMapList
          (fun i => _exposure_over_interval s (these_bins.getD i 0) (these_bins.getD (i + 1) 0))
          (List.range (these_bins.length - 1)) with
      | .error e => .err e s
      | .ok exposure_per_bin =>
        let gradeRes : Except ELError ℤ :=
          if s.user_poly_order = -1 then
            (fit_global_and_determine_optimum_grade ext
              (masked_counts mean_time cnts_all sels)
              (masked_mean_time mean_time sels)
              (masked_exposure mean_time exposure_per_bin sels)).map fun g => (g : ℤ)
          else .ok s.user_poly_order
        match gradeRes with
        | .error e => .err e s
        | .ok grade =>
          let s := { s with optimal_polynomial_grade := grade }
          if ext.use_parallel then .err .notImplemented s
          else
            match exceptMapList (fun c =>
                let chan := s.first_channel + (c : ℤ)
                let current_events :=
                  ((total_poly_events.zip total_poly_energies).filter fun p =>
                    p.2 == chan).map Prod.fst
                (histogram current_events these_bins).bind fun cnts =>
                  (ext.polyfit (masked_mean_time mean_time sels)
                    (masked_counts mean_time cnts sels) grade
                    (masked_exposure mean_time exposure_per_bin sels)).map Prod.fst)
                (List.range s.n_channels) with
            | .error e => .err e s
            | .ok polys => .ok { s with polynomials := polys }

/-- `EventList._unbinned_fit_polynomials` (lines 837-1008, sequential path).
Sets `_poly_fit_exists = True` first; computes the background exposure as
total selection duration minus `self._dead_time[poly_mask].sum()` (no `None`
guard); picks the grade; then fits every channel with the unbinned
objective. -/
def _unbinned_fit_polynomials (s0 : EventList) (ext : Externals) : StepResult :=
  let s := { s0 with poly_fit_exists := true }
  match s.poly_time_selections with
  | [] => .err .indexError s
  | _ :: _ =>
    let sels := s.poly_time_selections
    let total_duration := durations_sum sels
    let total_poly_events := s.arrival_times.filter (event_in_union sels)
    let total_poly_energies :=
      ((s.arrival_times.zip s.energies).filter fun p => event_in_union sels p.1).map Prod.snd
    match s.dead_time with
    | none => .err .typeError s
    | some dead =>
      let poly_exposure := total_duration - masked_dead_time_sum s.arrival_times dead sels
      let gradeRes : Except ELError ℤ :=
        if s.user_poly_order = -1 then
          (unbinned_fit_global_and_determine_optimum_grade ext total_poly_events sels
            poly_exposure).map fun g => (g : ℤ)
        else .ok s.user_poly_order
      match gradeRes with
      | .error e => .err e s
      | .ok grade =>
        let s := { s with optimal_polynomial_grade := grade }
        if ext.use_parallel then .err .notImplemented s
        else
          match exceptMapList (fun c =>
              let chan := s.first_channel + (c : ℤ)
              let current_events :=
                ((total_poly_events.zip total_poly_energies).filter fun p =>
                  p.2 == chan).map Prod.fst
              (ext.unbinned_polyfit current_events grade (sels.map Prod.fst)
                (sels.map Prod.snd) poly_exposure).map Prod.fst)
              (List.range s.n_channels) with
          | .error e => .err e s
          | .ok polys => .ok { s with polynomials := polys }

/-- Rounding through `"%.5f" % x` followed by re-parsing, as done by
`set_polynomial_fit_interval` when it rebuilds the active-interval strings
(lines 395-399). -/
def fmt5 (q : ℚ) : ℚ := ((⌊q * 100000 + 1 / 2⌋ : ℤ) : ℚ) / 100000

/-- `EventList.set_polynomial_fit_interval` (lines 341-399), taking parsed
`(t1, t2)` pairs and the `unbinned` option (default `True` in the source).
Stores the selections, records the mode, runs the corresponding fit, sets
`_poly_fit_exists = True` again, and when an active selection exists re-runs
`set_active_time_intervals` on the stored (reformatted) bounds. -/
def set_polynomial_fit_interval (s0 : EventList) (time_intervals : List (ℚ × ℚ))
    (unbinned : Bool) (ext : Externals) : StepResult :=
  let s := { s0 with poly_time_selections := time_intervals, unbinned := unbinned }
  let fitRes :=
    if unbinned then _unbinned_fit_polynomials s ext
    else _fit_polynomials s ext
  match fitRes with
  | .err e s1 => .err e s1
  | .ok s1 =>
    let s2 := { s1 with poly_fit_exists := true }
    if s2.time_selection_exists then
      set_active_time_intervals s2
        ((s2.tmin_list.zip s2.tmax_list).map fun p => (fmt5 p.1, fmt5 p.2)) ext
    else .ok s2

/-- `EventList.__set_poly_order` reached through the `poly_order` property
(lines 294-330): assert integer, assert `-1 <= value <= 4`, store it, and
when a fit exists refit at once in the recorded estimation mode. -/
def set_poly_order (s : EventList) (value : PyValue) (ext : Externals) : StepResult :=
  match value with
  | .nonInt => .err .assertionError s
  | .int v =>
    if v < -1 ∨ 4 < v then .err .assertionError s
    else
      let s := { s with user_poly_order := v }
      if s.poly_fit_exists then
        if s.unbinned then _unbinned_fit_polynomials s ext
        else _fit_polynomials s ext
      else .ok s

/-- The `polynomials` property (lines 241-247): returns the fitted models
when a fit exists; otherwise it merely CONSTRUCTS
`RuntimeError('A polynomial fit has not been made.')` without raising it and
falls through, returning `None` (modelled as `.ok none`). -/
def polynomials_property (s : EventList) : Except ELError (Option (List PolyModel)) :=
  if s.poly_fit_exists then .ok (some s.polynomials) else .ok none

/-- `EventList.get_poly_info` (lines 249-287): with a fit, returns the
per-channel coefficient and error tables; without one it likewise constructs
a `RuntimeError` without raising it and returns `None`. -/
def get_poly_info (s : EventList) : Except ELError (Option (List (List ℚ) × List (List ℚ))) :=
  if s.poly_fit_exists then
    .ok (some (s.polynomials.map PolyModel.coefficients, s.polynomials.map PolyModel.error))
  else .ok none

/-- `EventList.get_pha_container` (lines 401-440): raise when no time
selection exists; otherwise build the container from observed counts
(Poisson, no errors) or from the background-model counts (with errors,
non-Poisson). -/
def get_pha_container (s : EventList) (use_poly : Bool) : Except ELError PHAContainer :=
  if ¬ s.time_selection_exists then .error .runtimeError
  else if use_poly then
    .ok { rates := s.poly_counts.map fun c => c / s.exposure
          rate_errors := some (s.poly_count_err.map fun c => c / s.exposure)
          n_channels := s.n_channels
          exposure := s.exposure
          is_poisson := false
          response_file := s.rsp_file }
  else
    .ok { rates := s.counts.map fun c => (c : ℚ) / s.exposure
          rate_errors := none
          n_channels := s.n_channels
          exposure := s.exposure
          is_poisson := true
          response_file := s.rsp_file }

/-- Minimum of a list of rationals (`np.asarray(l).min()`; the empty case,
which numpy rejects, defaults to `0` and is never exercised). -/
def listMin (l : List ℚ) : ℚ := l.foldl min (l.headD 0)

/-- Maximum of a list of rationals (`np.asarray(l).max()`). -/
def listMax (l : List ℚ) : ℚ := l.foldl max (l.headD 0)

/-- `EventList.__init__` (lines 42-108): stores the event stream, defaults
`start_time`/`stop_time` to the extreme arrival times, keeps `dead_time`
optional, and initialises `_user_poly_order = -1`,
`_time_selection_exists = False`, `_poly_fit_exists = False`.  Fields Python
creates only later start at inert defaults. -/
def EventList.init (arrival_times : List ℚ) (energies : List ℤ) (n_channels : ℕ)
    (start_time stop_time : Option ℚ) (dead_time : Option (List ℚ))
    (first_channel : ℤ) (rsp_file : Option ℕ) : EventList :=
  { arrival_times := arrival_times
    energies := energies
    n_channels := n_channels
    first_channel := first_channel
    dead_time := dead_time
    start_time := start_time.getD (listMin arrival_times)
    stop_time := stop_time.getD (listMax arrival_times)
    rsp_file := rsp_file
    user_poly_order := -1
    time_selection_exists := false
    poly_fit_exists := false
    counts := []
    poly_counts := []
    poly_count_err := []
    exposure := 0
    total_dead_time := 0
    tmin_list := []
    tmax_list := []
    active_dead_time := 0
    poly_time_selections := []
    unbinned := false
    optimal_polynomial_grade := 0
    polynomials := [] }

/-- A polynomial model with all-zero behaviour, used as the value returned
by the concrete fit oracles in witnesses. -/
def pm0 : PolyModel :=
  { integral := fun _ _ => 0
    integral_error := fun _ _ => 0
    coefficients := [0]
    error := [0] }

/-- Externals whose fit objectives always fail (their behaviour is
irrelevant to the paths exercised). -/
def trivialExternals : Externals :=
  { polyfit := fun _ _ _ _ => .error .fitFailure
    unbinned_polyfit := fun _ _ _ _ _ => .error .fitFailure
    sqrt := fun q => q
    use_parallel := false }

/-- Externals whose fit objectives always succeed with `pm0` and
log-likelihood `0`. -/
def okExternals : Externals :=
  { polyfit := fun _ _ _ _ => .ok (pm0, 0)
    unbinned_polyfit := fun _ _ _ _ _ => .ok (pm0, 0)
    sqrt := fun q => q
    use_parallel := false }

/-- A freshly constructed event list: two events at `t = 1, 2` in channel 0,
no dead-time array, no selection of any kind. -/
def freshEventList : EventList :=
  EventList.init [1, 2] [0, 0] 1 none none none 0 none

/-- A fresh event list over `[0, 1]` with a dead-time array, a forced
polynomial order of 2 and a stored background selection. -/
def forcedFitEventList : EventList :=
  { EventList.init [1/2] [0] 1 (some 0) (some 1) (some [0]) 0 none with
    user_poly_order := 2
    poly_time_selections := [(0, 1)] }

/-- A fresh event list over `[0, 1]` constructed with `dead_time = None`. -/
def noDeadEventList : EventList :=
  EventList.init [1/2] [0] 1 (some 0) (some 1) none 0 none

/-- An event list with `dead_time = None`, span `[0, 2]` and a stored
background selection, on which both background-fit paths must raise. -/
def noDeadSelEventList : EventList :=
  { EventList.init [1] [0] 1 (some 0) (some 2) none 0 none with
    poly_time_selections := [(0, 2)] }

/-- An event list with a dead-time array, a stored background selection and
a forced polynomial order of 2. -/
def forcedUnbinnedEventList : EventList :=
  { EventList.init [1] [0] 1 (some 0) (some 2) (some [0]) 0 none with
    user_poly_order := 2
    poly_time_selections := [(0, 2)] }

/-- A fresh event list whose `time_selection_exists` flag is set (as after a
successful active-interval selection). -/
def activeEventList : EventList :=
  { freshEventList with time_selection_exists := true }

/-- Openness condition of the spec's Interval Set: two intervals may touch
at endpoints but must not overlap on an open set. -/
def no_overlap_pair (a b : ℚ × ℚ) : Prop := a.2 ≤ b.1 ∨ b.2 ≤ a.1

/-- The spec's pairwise non-overlap requirement on an interval set. -/
def NonOverlappingSet (l : List (ℚ × ℚ)) : Prop := l.Pairwise no_overlap_pair

instance (a b : ℚ × ℚ) : Decidable (no_overlap_pair a b) := by
  unfold no_overlap_pair; infer_instance

instance (l : List (ℚ × ℚ)) : Decidable (NonOverlappingSet l) := by
  unfold NonOverlappingSet; infer_instance

/-- A well-formed non-overlapping interval set never trips the (first
interval only) overlap check, in particular touching endpoints are
accepted. -/
theorem overlap_eq_false_of_nonOverlapping (l : List (ℚ × ℚ))
    (hlt : ∀ p ∈ l, p.1 < p.2) (hno : NonOverlappingSet l) :
    intervals_overlap (l.map Prod.fst) (l.map Prod.snd) = false := by
  cases l with
  | nil => rfl
  | cons a rest =>
    have hsep : ∀ b ∈ rest, no_overlap_pair a b := (List.pairwise_cons.mp hno).1
    have key : ∀ b ∈ rest,
        (decide (a.1 < b.1 ∧ b.1 < a.2) || decide (a.1 < b.2 ∧ b.2 < a.2)) = false := by
      intro b hb
      have hab := hsep b hb
      have hblt := hlt b (List.mem_cons_of_mem _ hb)
      unfold no_overlap_pair at hab
      simp only [Bool.or_eq_false_iff, decide_eq_false_iff_not]
      constructor
      · rintro ⟨h1, h2⟩
        rcases hab with h | h <;> linarith
      · rintro ⟨h1, h2⟩
        rcases hab with h | h <;> linarith
    rw [show intervals_overlap ((a :: rest).map Prod.fst) ((a :: rest).map Prod.snd)
        = ((rest.map Prod.fst).zip (rest.map Prod.snd)).any (fun q =>
            decide (a.1 < q.1 ∧ q.1 < a.2) || decide (a.1 < q.2 ∧ q.2 < a.2)) from rfl]
    rw [List.zip_map', List.any_map, List.any_eq_false]
    intro b hb
    simp only [Function.comp_apply, Bool.not_eq_true]
    exact key b hb

/-- C1 (amended): for any list of two or more intervals, `intervals_overlap`
returns true exactly when the bound (`tmin` or `tmax`) of some LATER
interval strictly lies inside the FIRST interval's open range; it compares
only the first interval against the others and returns after the first
outer-loop iteration; for an interval set that is pairwise non-overlapping
in the open sense (disjoint or touching) it returns false.  (The original
claim's symmetric reading — true whenever SOME interval's bound lies inside
ANOTHER's open range — fails: containment of the first interval strictly
inside a later one is not detected, see the counterexample.) -/
theorem intervals_overlap_first_interval_only (this_min this_max : ℚ)
    (rest_min rest_max : List ℚ) (l : List (ℚ × ℚ))
    (hlt : ∀ p ∈ l, p.1 < p.2) (hno : NonOverlappingSet l) :
    (intervals_overlap (this_min :: rest_min) (this_max :: rest_max) = true ↔
      ∃ q ∈ rest_min.zip rest_max,
        (this_min < q.1 ∧ q.1 < this_max) ∨ (this_min < q.2 ∧ q.2 < this_max)) ∧
    intervals_overlap (l.map Prod.fst) (l.map Prod.snd) = false := by
  refine ⟨?_, overlap_eq_false_of_nonOverlapping l hlt hno⟩
  simp [intervals_overlap, List.any_eq_true]

/-- C1 witness: at the concrete lists `tmin = [0, 5]`, `tmax = [10, 15]`
the second interval's lower bound 5 lies strictly inside `(0, 10)` and the
check fires; at `tmin = [0, 2]`, `tmax = [1, 2]` (disjoint/touching,
non-overlapping) it returns false. -/
theorem intervals_overlap_first_interval_only_witness :
    (intervals_overlap [(0 : ℚ), 5] [10, 15] = true ↔
      ∃ q ∈ [(5 : ℚ)].zip [(15 : ℚ)],
        ((0 : ℚ) < q.1 ∧ q.1 < 10) ∨ ((0 : ℚ) < q.2 ∧ q.2 < 10)) ∧
    intervals_overlap ([((0 : ℚ), 1), (1, 2)].map Prod.fst)
      ([((0 : ℚ), 1), (1, 2)].map Prod.snd) = false :=
  intervals_overlap_first_interval_only 0 10 [5] [15] [(0, 1), (1, 2)]
    (by decide) (by decide)

/-- C1 counterexample: the first interval `(0, 10)` is strictly contained in
the second interval `(-5, 20)`: the first interval's bounds 0 and 10 both
lie strictly inside the other's open range, so the claim's criterion
(`some interval's bound strictly lies inside another interval's open
range`) holds — yet `intervals_overlap` returns false, because it only
tests the other intervals' bounds against the first interval's range. -/
theorem intervals_overlap_counterexample :
    intervals_overlap [(0 : ℚ), -5] [10, 20] = false ∧
      ((-5 : ℚ) < 0 ∧ (0 : ℚ) < 20) ∧ ((-5 : ℚ) < 10 ∧ (10 : ℚ) < 20) := by
  decide

/-- C2 (amended): calling `set_active_time_intervals` with an overlapping
interval set (one the buggy check detects, e.g. "0.0-10.0" and "5.0-15.0")
raises `OverLappingIntervals` and leaves the per-channel counts, exposure,
dead time, tmin/tmax lists and background state unchanged — but NOT the
time-selection-exists flag, which the method unconditionally sets to `True`
before validating, so a previously-false flag is left `True` on the error
path. -/
theorem set_active_overlapping_raises (s : EventList) (intervals : List (ℚ × ℚ))
    (ext : Externals)
    (h : intervals_overlap (intervals.map Prod.fst) (intervals.map Prod.snd) = true) :
    set_active_time_intervals s intervals ext =
      .err .overlappingIntervals { s with time_selection_exists := true } := by
  simp [set_active_time_intervals, h]

/-- C2 witness: the concrete overlapping pair (0,10), (5,15) on a fresh
event list. -/
theorem set_active_overlapping_raises_witness :
    intervals_overlap ([((0 : ℚ), 10), (5, 15)].map Prod.fst)
        ([((0 : ℚ), 10), (5, 15)].map Prod.snd) = true ∧
      set_active_time_intervals freshEventList [((0 : ℚ), 10), (5, 15)] trivialExternals =
        .err .overlappingIntervals { freshEventList with time_selection_exists := true } :=
  ⟨by decide, set_active_overlapping_raises freshEventList _ trivialExternals (by decide)⟩

/-- C2 counterexample: on a freshly constructed event list (whose
time-selection flag is false) the overlapping call raises
`OverLappingIntervals` but the flag is left `True`, so the prior selection
state is NOT fully unchanged as the claim says. -/
theorem set_active_overlapping_mutates_flag :
    freshEventList.time_selection_exists = false ∧
      (set_active_time_intervals freshEventList [((0 : ℚ), 10), (5, 15)]
        trivialExternals).errorOf = some .overlappingIntervals ∧
      (set_active_time_intervals freshEventList [((0 : ℚ), 10), (5, 15)]
        trivialExternals).state.time_selection_exists = true :=
  ⟨rfl, rfl, rfl⟩

/-- C4: `get_pha_container` raises when no time selection exists; otherwise
with `use_poly = False` it returns rates `counts / exposure`, no rate
errors and the Poisson flag set, and with `use_poly = True` it returns
rates `poly_counts / exposure`, rate errors `poly_count_err / exposure` and
the Poisson flag cleared. -/
theorem get_pha_container_spec (s : EventList) :
    (s.time_selection_exists = false →
      get_pha_container s false = .error .runtimeError ∧
      get_pha_container s true = .error .runtimeError) ∧
    (s.time_selection_exists = true →
      get_pha_container s false =
        .ok { rates := s.counts.map fun c => (c : ℚ) / s.exposure
              rate_errors := none
              n_channels := s.n_channels
              exposure := s.exposure
              is_poisson := true
              response_file := s.rsp_file } ∧
      get_pha_container s true =
        .ok { rates := s.poly_counts.map fun c => c / s.exposure
              rate_errors := some (s.poly_count_err.map fun c => c / s.exposure)
              n_channels := s.n_channels
              exposure := s.exposure
              is_poisson := false
              response_file := s.rsp_file }) := by
  constructor <;> intro h <;> simp [get_pha_container, h]

/-- C4 witness: on a state with an active selection both containers are
produced; on a fresh state both calls raise. -/
theorem get_pha_container_spec_witness :
    (get_pha_container freshEventList false = .error .runtimeError ∧
      get_pha_container freshEventList true = .error .runtimeError) ∧
    get_pha_container activeEventList false =
      .ok { rates := activeEventList.counts.map fun c => (c : ℚ) / activeEventList.exposure
            rate_errors := none
            n_channels := activeEventList.n_channels
            exposure := activeEventList.exposure
            is_poisson := true
            response_file := activeEventList.rsp_file } ∧
    get_pha_container activeEventList true =
      .ok { rates := activeEventList.poly_counts.map fun c => c / activeEventList.exposure
            rate_errors := some (activeEventList.poly_count_err.map fun c =>
              c / activeEventList.exposure)
            n_channels := activeEventList.n_channels
            exposure := activeEventList.exposure
            is_poisson := false
            response_file := activeEventList.rsp_file } :=
  ⟨(get_pha_container_spec freshEventList).1 rfl,
    (get_pha_container_spec activeEventList).2 rfl⟩

/-- C7: the source intends to raise when no fit exists, but both the
`polynomials` property and `get_poly_info` merely construct
`RuntimeError('A polynomial fit has not been made.')` without `raise`, so
on a freshly constructed event list (no polynomial fit) both return `None`
normally instead of failing. -/
theorem poly_info_returns_none_without_fit :
    freshEventList.poly_fit_exists = false ∧
      polynomials_property freshEventList = .ok none ∧
      get_poly_info freshEventList = .ok none :=
  ⟨rfl, rfl, rfl⟩

/-- The likelihood-ratio grade selection on the four log-likelihoods of
grades 0..3: bounded by 3, and equal to the last consecutive-pair index
with `Δ = 2*(LL[d] - LL[d+1]) >= 9` plus one (0 when no pair qualifies). -/
theorem best_grade_char (a b c d : ℚ) :
    best_grade_from_loglikes [a, b, c, d] ≤ 3 ∧
    ((2 * (a - b) < 9 ∧ 2 * (b - c) < 9 ∧ 2 * (c - d) < 9) →
      best_grade_from_loglikes [a, b, c, d] = 0) ∧
    (9 ≤ 2 * (c - d) → best_grade_from_loglikes [a, b, c, d] = 3) ∧
    (2 * (c - d) < 9 → 9 ≤ 2 * (b - c) → best_grade_from_loglikes [a, b, c, d] = 2) ∧
    (2 * (c - d) < 9 → 2 * (b - c) < 9 → 9 ≤ 2 * (a - b) →
      best_grade_from_loglikes [a, b, c, d] = 1) := by
  have e0 : best_grade_from_loglikes [a, b, c, d] =
      match (([(0, 2 * (a - b)), (1, 2 * (b - c)), (2, 2 * (c - d))] : List (ℕ × ℚ)).filter
        fun p => decide ((9 : ℚ) ≤ p.2)).getLast? with
      | none => 0
      | some p => p.1 + 1 := rfl
  by_cases h2 : (9 : ℚ) ≤ 2 * (c - d) <;> by_cases h1 : (9 : ℚ) ≤ 2 * (b - c) <;>
      by_cases h0 : (9 : ℚ) ≤ 2 * (a - b) <;>
    simp only [h0, h1, h2, List.filter_cons, List.filter_nil, decide_True, decide_False,
      if_true, if_false, List.getLast?_singleton, decide_eq_true_eq] at e0 <;>
    simp only [e0] <;>
    refine ⟨by norm_num, ?_, ?_, ?_, ?_⟩ <;> intros <;> first | rfl | linarith

/-- C3: with `poly_order == -1`, both Degree Selectors fit exactly grades
0..3 with their objective on the energy-summed (binned) or whole-sample
(unbinned) data, compute `Δ = 2*(LL[d] - LL[d+1])` over consecutive pairs
and select the last index with `Δ >= 9.0` plus one (or 0 when none
qualifies); both modes agree and the selected degree always lies in
`[0, 3]`.  `LL` is the log-likelihood that the external objective reports
for each fitted grade. -/
theorem degree_selector_spec (LL : ℕ → ℚ) (cnts : List ℕ) (bins exposure : List ℚ)
    (events : List ℚ) (sels : List (ℚ × ℚ)) (pexp : ℚ) (pm : PolyModel)
    (sq : ℚ → ℚ) (par : Bool) :
    ∃ g : ℕ,
      fit_global_and_determine_optimum_grade
        { polyfit := fun _ _ gr _ => .ok (pm, LL gr.toNat)
          unbinned_polyfit := fun _ gr _ _ _ => .ok (pm, LL gr.toNat)
          sqrt := sq, use_parallel := par } cnts bins exposure = .ok g ∧
      unbinned_fit_global_and_determine_optimum_grade
        { polyfit := fun _ _ gr _ => .ok (pm, LL gr.toNat)
          unbinned_polyfit := fun _ gr _ _ _ => .ok (pm, LL gr.toNat)
          sqrt := sq, use_parallel := par } events sels pexp = .ok g ∧
      g ≤ 3 ∧
      ((2 * (LL 0 - LL 1) < 9 ∧ 2 * (LL 1 - LL 2) < 9 ∧ 2 * (LL 2 - LL 3) < 9) → g = 0) ∧
      (9 ≤ 2 * (LL 2 - LL 3) → g = 3) ∧
      (2 * (LL 2 - LL 3) < 9 → 9 ≤ 2 * (LL 1 - LL 2) → g = 2) ∧
      (2 * (LL 2 - LL 3) < 9 → 2 * (LL 1 - LL 2) < 9 → 9 ≤ 2 * (LL 0 - LL 1) → g = 1) := by
  obtain ⟨hb, hz, h3, h2, h1⟩ := best_grade_char (LL 0) (LL 1) (LL 2) (LL 3)
  exact ⟨best_grade_from_loglikes [LL 0, LL 1, LL 2, LL 3], rfl, rfl, hb, hz, h3, h2, h1⟩

/-- C3 witness: with log-likelihoods `10, 0, 0, 0` only the first pair has
`Δ = 20 >= 9`, so both selectors pick degree 1. -/
theorem fit_polynomials_state (s : EventList) (ext : Externals) :
    (∀ e s', _fit_polynomials s ext = .err e s' →
      s'.poly_fit_exists = true ∧ s'.polynomials = s.polynomials ∧
      s'.user_poly_order = s.user_poly_order ∧
      s'.poly_time_selections = s.poly_time_selections ∧ s'.unbinned = s.unbinned) ∧
    (∀ s', _fit_polynomials s ext = .ok s' →
      s'.poly_fit_exists = true ∧ s'.user_poly_order = s.user_poly_order ∧
      s'.poly_time_selections = s.poly_time_selections ∧ s'.unbinned = s.unbinned ∧
      (s.user_poly_order ≠ -1 → s'.optimal_polynomial_grade = s.user_poly_order)) := by
  constructor
  · intro e s' h
    simp only [_fit_polynomials] at h
    repeat
      first
      | (injection h with he hs; subst he; subst hs;
         exact ⟨rfl, rfl, rfl, rfl, rfl⟩)
      | (simp at h)
      | split at h
  · intro s' h
    simp only [_fit_polynomials] at h
    by_cases hu : s.user_poly_order = -1
    · simp only [if_pos hu] at h
      repeat
        first
        | (injection h with hs; subst hs;
           exact ⟨rfl, rfl, rfl, rfl, fun hne => absurd hu hne⟩)
        | (simp at h)
        | split at h
    · simp only [if_neg hu] at h
      repeat
        first
        | (injection h with hs; subst hs; exact ⟨rfl, rfl, rfl, rfl, fun _ => rfl⟩)
        | (simp at h)
        | split at h

theorem unbinned_fit_polynomials_state (s : EventList) (ext : Externals) :
    (∀ e s', _unbinned_fit_polynomials s ext = .err e s' →
      s'.poly_fit_exists = true ∧ s'.polynomials = s.polynomials ∧
      s'.user_poly_order = s.user_poly_order ∧
      s'.poly_time_selections = s.poly_time_selections ∧ s'.unbinned = s.unbinned) ∧
    (∀ s', _unbinned_fit_polynomials s ext = .ok s' →
      s'.poly_fit_exists = true ∧ s'.user_poly_order = s.user_poly_order ∧
      s'.poly_time_selections = s.poly_time_selections ∧ s'.unbinned = s.unbinned ∧
      (s.user_poly_order ≠ -1 → s'.optimal_polynomial_grade = s.user_poly_order)) := by
  constructor
  · intro e s' h
    simp only [_unbinned_fit_polynomials] at h
    repeat
      first
      | (injection h with he hs; subst he; subst hs;
         exact ⟨rfl, rfl, rfl, rfl, rfl⟩)
      | (simp at h)
      | split at h
  · intro s' h
    simp only [_unbinned_fit_polynomials] at h
    by_cases hu : s.user_poly_order = -1
    · simp only [if_pos hu] at h
      repeat
        first
        | (injection h with hs; subst hs;
           exact ⟨rfl, rfl, rfl, rfl, fun hne => absurd hu hne⟩)
        | (simp at h)
        | split at h
    · simp only [if_neg hu] at h
      repeat
        first
        | (injection h with hs; subst hs; exact ⟨rfl, rfl, rfl, rfl, fun _ => rfl⟩)
        | (simp at h)
        | split at h

/-- C6: a background fit (binned or unbinned) performed while `poly_order`
is forced to `k` in `[0, 4]` records `optimal_polynomial_grade = k`; the
`user_poly_order == -1` branch that invokes the automatic selector is
bypassed. -/
theorem forced_poly_order_grade (s s' : EventList) (ext : Externals) (k : ℤ)
    (hk : s.user_poly_order = k) (h0 : 0 ≤ k) (h4 : k ≤ 4)
    (h : _fit_polynomials s ext = .ok s' ∨ _unbinned_fit_polynomials s ext = .ok s') :
    s'.optimal_polynomial_grade = k := by
  have hne : s.user_poly_order ≠ -1 := by rw [hk]; omega
  rw [← hk]
  rcases h with h | h
  · exact ((fit_polynomials_state s ext).2 s' h).2.2.2.2 hne
  · exact ((unbinned_fit_polynomials_state s ext).2 s' h).2.2.2.2 hne

/-- C6 witness: an unbinned background fit with `poly_order` forced to 2
succeeds and stores grade 2. -/
theorem forced_poly_order_grade_witness :
    forcedUnbinnedEventList.user_poly_order = 2 ∧
    ∃ s', _unbinned_fit_polynomials forcedUnbinnedEventList okExternals = .ok s' ∧
      s'.optimal_polynomial_grade = 2 := by
  refine ⟨rfl, (_unbinned_fit_polynomials forcedUnbinnedEventList okExternals).state, rfl, ?_⟩
  exact forced_poly_order_grade forcedUnbinnedEventList _ okExternals 2 rfl (by decide)
    (by decide) (Or.inr rfl)

/-- C8: the `poly_order` setter raises an `AssertionError` on a non-integer
value or an integer outside `[-1, 4]`, leaving the whole state (including
the stored order) unchanged; a valid value is stored, and when a background
fit already exists the setter immediately refits in the recorded estimation
mode (`_unbinned`), reusing the stored background interval set — a
successful refit keeps the new order, the existing background selections
and the estimation mode. -/
theorem poly_order_setter_spec (s : EventList) (ext : Externals) :
    (set_poly_order s .nonInt ext = .err .assertionError s) ∧
    (∀ v : ℤ, v < -1 ∨ 4 < v → set_poly_order s (.int v) ext = .err .assertionError s) ∧
    (∀ v : ℤ, -1 ≤ v → v ≤ 4 → s.poly_fit_exists = false →
      set_poly_order s (.int v) ext = .ok { s with user_poly_order := v }) ∧
    (∀ v : ℤ, -1 ≤ v → v ≤ 4 → s.poly_fit_exists = true →
      set_poly_order s (.int v) ext =
        (if s.unbinned then _unbinned_fit_polynomials { s with user_poly_order := v } ext
         else _fit_polynomials { s with user_poly_order := v } ext)) ∧
    (∀ v : ℤ, -1 ≤ v → v ≤ 4 → s.poly_fit_exists = true → ∀ s',
      set_poly_order s (.int v) ext = .ok s' →
      s'.user_poly_order = v ∧ s'.poly_time_selections = s.poly_time_selections ∧
        s'.unbinned = s.unbinned ∧ s'.poly_fit_exists = true) := by
  refine ⟨rfl, ?_, ?_, ?_, ?_⟩
  · intro v hv
    simp [set_poly_order, hv]
  · intro v h1 h4 hp
    have hcond : ¬(v < -1 ∨ 4 < v) := by omega
    simp [set_poly_order, hcond, hp]
  · intro v h1 h4 hp
    have hcond : ¬(v < -1 ∨ 4 < v) := by omega
    simp [set_poly_order, hcond, hp]
  · intro v h1 h4 hp s' h
    have hcond : ¬(v < -1 ∨ 4 < v) := by omega
    by_cases hb : s.unbinned = true
    · simp [set_poly_order, hcond, hp, hb] at h
      have := (unbinned_fit_polynomials_state _ ext).2 s' h
      refine ⟨this.2.1, this.2.2.1, ?_, this.1⟩
      rw [hb]; exact this.2.2.2.1
    · have hb2 : s.unbinned = false := by simpa using hb
      simp [set_poly_order, hcond, hp, hb2] at h
      have := (fit_polynomials_state _ ext).2 s' h
      refine ⟨this.2.1, this.2.2.1, ?_, this.1⟩
      rw [hb2]; exact this.2.2.2.1

/-- C8 witness: on a fresh event list (no existing fit), `poly_order := 2`
stores the order; a non-integer and the out-of-range integer 7 raise and
leave the state untouched. -/
theorem poly_order_setter_spec_witness :
    set_poly_order freshEventList (.int 2) trivialExternals =
      .ok { freshEventList with user_poly_order := 2 } ∧
    set_poly_order freshEventList .nonInt trivialExternals =
      .err .assertionError freshEventList ∧
    set_poly_order freshEventList (.int 7) trivialExternals =
      .err .assertionError freshEventList :=
  ⟨(poly_order_setter_spec freshEventList trivialExternals).2.2.1 2 (by decide) (by decide) rfl,
   (poly_order_setter_spec freshEventList trivialExternals).1,
   (poly_order_setter_spec freshEventList trivialExternals).2.1 7 (by decide)⟩

theorem exposure_over_interval_no_dead (S : EventList) (hS : S.dead_time = none)
    (a b : ℚ) : _exposure_over_interval S a b = .error .typeError := by
  unfold _exposure_over_interval
  rw [hS]

theorem exceptMapList_err_head {β : Type} (f : ℕ → Except ELError β) (m : ℕ)
    (e : ELError) (hf : f 0 = .error e) :
    exceptMapList f (List.range (m + 1)) = .error e := by
  rw [List.range_succ_eq_map]
  simp only [exceptMapList, hf]

theorem fit_polynomials_no_dead (s : EventList) (ext : Externals)
    (hdead : s.dead_time = none) (hsel : s.poly_time_selections ≠ [])
    (hbins : 2 ≤ (arange s.start_time s.stop_time (1 / 10)).length) :
    ∃ s', _fit_polynomials s ext = .err .typeError s' := by
  obtain ⟨p, rest, hps⟩ : ∃ p rest, s.poly_time_selections = p :: rest := by
    cases h : s.poly_time_selections with
    | nil => exact absurd h hsel
    | cons p rest => exact ⟨p, rest, rfl⟩
  have hist_ok : ∀ ev : List ℚ, ∃ cn,
      histogram ev (arange s.start_time s.stop_time (1 / 10)) = .ok cn := by
    intro ev
    unfold histogram
    rw [if_neg (by omega)]
    exact ⟨_, rfl⟩
  simp only [_fit_polynomials, hps]
  obtain ⟨cn, hcn⟩ := hist_ok (s.arrival_times.filter (event_in_union (p :: rest)))
  rw [hcn]
  rw [show (arange s.start_time s.stop_time (1 / 10)).length - 1
      = ((arange s.start_time s.stop_time (1 / 10)).length - 2) + 1 by omega]
  rw [exceptMapList_err_head _ _ .typeError (exposure_over_interval_no_dead _ hdead _ _)]
  exact ⟨_, rfl⟩

theorem unbinned_fit_polynomials_no_dead (s : EventList) (ext : Externals)
    (hdead : s.dead_time = none) (hsel : s.poly_time_selections ≠ []) :
    ∃ s', _unbinned_fit_polynomials s ext = .err .typeError s' := by
  obtain ⟨p, rest, hps⟩ : ∃ p rest, s.poly_time_selections = p :: rest := by
    cases h : s.poly_time_selections with
    | nil => exact absurd h hsel
    | cons p rest => exact ⟨p, rest, rfl⟩
  simp only [_unbinned_fit_polynomials, hps]
  rw [show ({ s with poly_fit_exists := true } : EventList).dead_time = none from hdead]
  exact ⟨_, rfl⟩

theorem set_poly_fit_interval_err (s0 : EventList) (tis : List (ℚ × ℚ)) (ext : Externals)
    (e : ELError) (s1 : EventList) (ub : Bool)
    (h : (if ub then
            _unbinned_fit_polynomials { s0 with poly_time_selections := tis, unbinned := ub } ext
          else
            _fit_polynomials { s0 with poly_time_selections := tis, unbinned := ub } ext)
        = .err e s1) :
    set_polynomial_fit_interval s0 tis ub ext = .err e s1 := by
  simp only [set_polynomial_fit_interval]
  cases ub
  · simp only [Bool.false_eq_true, if_false] at h ⊢
    rw [h]
  · simp only [if_true] at h ⊢
    rw [h]

/-- C9: on an event list constructed with `dead_time = None`,
`set_polynomial_fit_interval` raises a `TypeError` in BOTH estimation
modes: the binned path indexes the missing dead-time array inside
`_exposure_over_interval` (per-bin exposure) and the unbinned path inside
its background-exposure computation, neither with a `None` guard — even
though construction and `set_active_time_intervals` accept a missing
dead-time array.  (The length hypothesis only ensures the binned path has
at least one 0.1-second bin to compute an exposure for.) -/
theorem missing_dead_time_fit_fails (s : EventList) (ext : Externals)
    (sels : List (ℚ × ℚ)) (hdead : s.dead_time = none) (hne : sels ≠ [])
    (hbins : 2 ≤ (arange s.start_time s.stop_time (1 / 10)).length) :
    (∃ s', set_polynomial_fit_interval s sels false ext = .err .typeError s') ∧
    (∃ s', set_polynomial_fit_interval s sels true ext = .err .typeError s') := by
  constructor
  · obtain ⟨s', hs'⟩ := fit_polynomials_no_dead
      { s with poly_time_selections := sels, unbinned := false } ext hdead hne hbins
    exact ⟨s', set_poly_fit_interval_err s sels ext .typeError s' false (by simpa using hs')⟩
  · obtain ⟨s', hs'⟩ := unbinned_fit_polynomials_no_dead
      { s with poly_time_selections := sels, unbinned := true } ext hdead hne
    exact ⟨s', set_poly_fit_interval_err s sels ext .typeError s' true (by simpa using hs')⟩

/-- C9 witness: a concrete event list over `[0, 1]` built without a
dead-time array fails in both modes when a background fit over `(0, 1)` is
requested. -/
theorem missing_dead_time_fit_fails_witness :
    noDeadEventList.dead_time = none ∧
    (∃ s', set_polynomial_fit_interval noDeadEventList [((0 : ℚ), 1)] false okExternals =
      .err .typeError s') ∧
    (∃ s', set_polynomial_fit_interval noDeadEventList [((0 : ℚ), 1)] true okExternals =
      .err .typeError s') := by
  have hb : 2 ≤ (arange noDeadEventList.start_time noDeadEventList.stop_time (1 / 10)).length := by
    show 2 ≤ (arange 0 1 (1 / 10)).length
    rw [arange, List.length_map, List.length_range, ratCeil]
    have h10 : ((1 : ℚ) - 0) / (1 / 10) = 10 := by norm_num
    rw [h10]
    norm_num
  have h := missing_dead_time_fit_fails noDeadEventList okExternals [((0 : ℚ), 1)] rfl
    (by simp) hb
  exact ⟨rfl, h.1, h.2⟩

/-- C10: whenever either background-fit operation raises (for any reason,
e.g. a failure inside a per-channel fit), the state the exception leaves
behind already has `poly_fit_exists = True` — the flag is set as the
function's first action — while `_polynomials` still holds whatever models
(possibly none or stale ones) existed before the call. -/
theorem fit_failure_leaves_flag_set (s : EventList) (ext : Externals) (e : ELError)
    (s' : EventList)
    (h : _fit_polynomials s ext = .err e s' ∨ _unbinned_fit_polynomials s ext = .err e s') :
    s'.poly_fit_exists = true ∧ s'.polynomials = s.polynomials := by
  rcases h with h | h
  · exact ⟨((fit_polynomials_state s ext).1 e s' h).1,
      ((fit_polynomials_state s ext).1 e s' h).2.1⟩
  · exact ⟨((unbinned_fit_polynomials_state s ext).1 e s' h).1,
      ((unbinned_fit_polynomials_state s ext).1 e s' h).2.1⟩

/-- C10 witness: a failing unbinned fit (missing dead-time array) on a
state with no prior fit leaves the flag raised and the polynomial list
stale (empty). -/
theorem fit_failure_leaves_flag_set_witness :
    noDeadSelEventList.poly_fit_exists = false ∧
    _unbinned_fit_polynomials noDeadSelEventList okExternals =
      .err .typeError ((_unbinned_fit_polynomials noDeadSelEventList okExternals).state) ∧
    ((_unbinned_fit_polynomials noDeadSelEventList okExternals).state).poly_fit_exists = true ∧
    ((_unbinned_fit_polynomials noDeadSelEventList okExternals).state).polynomials =
      noDeadSelEventList.polynomials := by
  refine ⟨rfl, rfl, ?_⟩
  exact fit_failure_leaves_flag_set noDeadSelEventList okExternals .typeError _ (Or.inr rfl)

theorem degree_selector_spec_witness :
    ∃ g : ℕ,
      fit_global_and_determine_optimum_grade
        { polyfit := fun _ _ gr _ =>
            .ok (pm0, (fun n : ℕ => if n = 0 then (10 : ℚ) else 0) gr.toNat)
          unbinned_polyfit := fun _ gr _ _ _ =>
            .ok (pm0, (fun n : ℕ => if n = 0 then (10 : ℚ) else 0) gr.toNat)
          sqrt := fun q => q, use_parallel := false } [] [] [] = .ok g ∧
      g ≤ 3 ∧ g = 1 := by
  obtain ⟨g, hfit, _, hb, _, _, _, h1⟩ :=
    degree_selector_spec (fun n : ℕ => if n = 0 then (10 : ℚ) else 0) [] [] [] [] [] 0
      pm0 (fun q => q) false
  exact ⟨g, hfit, hb, h1 (by norm_num) (by norm_num) (by norm_num)⟩

theorem exceptMapList_isOk_iff {α β : Type} (f : α → Except ELError β) (xs : List α) :
    (∃ ys, exceptMapList f xs = .ok ys) ↔ ∀ a ∈ xs, ∃ b, f a = .ok b := by
  induction xs with
  | nil =>
    constructor
    · intro _ a ha; cases ha
    · intro _; exact ⟨[], rfl⟩
  | cons a as ih =>
    constructor
    · rintro ⟨ys, hys⟩ x hx
      cases hfa : f a with
      | error e =>
        simp only [exceptMapList, hfa] at hys
        exact absurd hys (by simp)
      | ok v =>
        simp only [exceptMapList, hfa] at hys
        cases hrec : exceptMapList f as with
        | error e =>
          simp only [hrec] at hys
          exact absurd hys (by simp)
        | ok bs =>
          rcases List.mem_cons.mp hx with rfl | hx2
          · exact ⟨v, hfa⟩
          · exact (ih.mp ⟨bs, hrec⟩) x hx2
    · intro hall
      obtain ⟨v, hfa⟩ := hall a (List.mem_cons_self a as)
      obtain ⟨ys, hys⟩ := ih.mpr fun x hx => hall x (List.mem_cons_of_mem a hx)
      exact ⟨v :: ys, by simp only [exceptMapList, hfa, hys]⟩

theorem except_map_ok_iff {α β : Type} (e : Except ELError α) (f : α → β) :
    (∃ b, e.map f = .ok b) ↔ ∃ a, e = .ok a := by
  cases e <;> simp [Except.map]

theorem event_in_union_perm {l l' : List (ℚ × ℚ)} (h : l.Perm l') (t : ℚ) :
    event_in_union l t = event_in_union l' t := by
  simp only [event_in_union]
  rcases hb : l'.any fun p => decide (p.1 ≤ t) && decide (t ≤ p.2) with _ | _
  · rw [List.any_eq_false] at hb ⊢
    intro p hp
    exact hb p (h.mem_iff.mp hp)
  · rw [List.any_eq_true] at hb ⊢
    obtain ⟨p, hp, hpt⟩ := hb
    exact ⟨p, h.mem_iff.mpr hp, hpt⟩

theorem durations_sum_perm {l l' : List (ℚ × ℚ)} (h : l.Perm l') :
    durations_sum l = durations_sum l' :=
  List.Perm.sum_eq (h.map _)

theorem masked_dead_time_sum_perm (times dead : List ℚ) {l l' : List (ℚ × ℚ)}
    (h : l.Perm l') :
    masked_dead_time_sum times dead l = masked_dead_time_sum times dead l' := by
  have he : event_in_union l = event_in_union l' := funext (event_in_union_perm h)
  rw [masked_dead_time_sum, masked_dead_time_sum, he]

theorem total_dead_perm (s : EventList) {l l' : List (ℚ × ℚ)} (h : l.Perm l') :
    total_dead s l = total_dead s l' := by
  unfold total_dead
  cases s.dead_time with
  | none => rfl
  | some dead => exact masked_dead_time_sum_perm _ _ h

theorem channel_counts_perm (s : EventList) {l l' : List (ℚ × ℚ)} (h : l.Perm l') :
    channel_counts s l = channel_counts s l' := by
  have he : event_in_union l = event_in_union l' := funext (event_in_union_perm h)
  rw [channel_counts, channel_counts, he]

theorem total_dead_congr (s3 s : EventList) (hd : s3.dead_time = s.dead_time)
    (ha : s3.arrival_times = s.arrival_times) (l : List (ℚ × ℚ)) :
    total_dead s3 l = total_dead s l := by
  unfold total_dead masked_dead_time_sum
  rw [hd, ha]

theorem apply_poly_step_fields (s : EventList) (l : List (ℚ × ℚ)) (ext : Externals)
    (s3 : EventList) (h : apply_poly_step s l ext = .ok s3) :
    s3.dead_time = s.dead_time ∧ s3.arrival_times = s.arrival_times := by
  unfold apply_poly_step at h
  split at h
  · cases hm : polyCountsStep s l ext with
    | error e => rw [hm] at h; simp [Except.map] at h
    | ok pcs =>
      rw [hm] at h
      simp only [Except.map] at h
      injection h with h'
      rw [← h']
      exact ⟨rfl, rfl⟩
  · injection h with h'
    rw [← h']
    exact ⟨rfl, rfl⟩

theorem apply_poly_step_ok_transfer (s : EventList) (l l' : List (ℚ × ℚ)) (ext : Externals)
    (h : ∃ s3, apply_poly_step s l ext = .ok s3) :
    ∃ s3, apply_poly_step s l' ext = .ok s3 := by
  unfold apply_poly_step at h ⊢
  by_cases hp : s.poly_fit_exists = true
  · simp only [hp, if_true] at h ⊢
    have h1 : ∃ pcs, polyCountsStep s l ext = .ok pcs := by
      obtain ⟨s3, h3⟩ := h
      cases hm : polyCountsStep s l ext with
      | error e => rw [hm] at h3; simp [Except.map] at h3
      | ok pcs => exact ⟨pcs, rfl⟩
    have h2 : ∃ pcs, polyCountsStep s l' ext = .ok pcs := by
      rw [polyCountsStep] at h1 ⊢
      rw [exceptMapList_isOk_iff] at h1 ⊢
      intro c hc
      obtain ⟨b, hb⟩ := h1 c hc
      obtain ⟨a, ha⟩ := (except_map_ok_iff _ _).mp ⟨b, hb⟩
      rw [polyChannelStep, ha]
      exact ⟨_, rfl⟩
    obtain ⟨pcs, hpcs⟩ := h2
    rw [hpcs]
    exact ⟨_, rfl⟩
  · have hp2 : s.poly_fit_exists = false := by simpa using hp
    simp only [hp2, Bool.false_eq_true, if_false]
    exact ⟨s, rfl⟩

theorem set_active_ok_elim (s : EventList) (l : List (ℚ × ℚ)) (ext : Externals)
    (s₁ : EventList) (h : set_active_time_intervals s l ext = .ok s₁) :
    intervals_overlap (l.map Prod.fst) (l.map Prod.snd) = false ∧ l ≠ [] ∧
    (∃ s3, apply_poly_step (active_counts_state s l) l ext = .ok s3) ∧
    s₁.exposure = durations_sum l - total_dead s l := by
  by_cases hov : intervals_overlap (l.map Prod.fst) (l.map Prod.snd) = true
  · simp [set_active_time_intervals, hov] at h
  · have hov2 : intervals_overlap (l.map Prod.fst) (l.map Prod.snd) = false := by
      simpa using hov
    rcases l with _ | ⟨a, as⟩
    · simp only [set_active_time_intervals] at h
      split at h
      · exact absurd h (by simp)
      · simp at h
    · simp only [set_active_time_intervals, hov2, Bool.false_eq_true, if_false,
        List.isEmpty_cons] at h
      cases hm : apply_poly_step (active_counts_state s (a :: as)) (a :: as) ext with
      | error e =>
        rw [hm] at h
        exact absurd h (by simp)
      | ok s3 =>
        rw [hm] at h
        injection h with h'
        obtain ⟨hd, ha⟩ := apply_poly_step_fields _ _ _ _ hm
        refine ⟨hov2, by simp, ⟨s3, rfl⟩, ?_⟩
        rw [← h']
        show durations_sum (a :: as) - total_dead s3 (a :: as) = _
        rw [total_dead_congr s3 s (by exact hd) (by exact ha)]

theorem set_active_ok_intro (s : EventList) (l : List (ℚ × ℚ)) (ext : Externals)
    (hov : intervals_overlap (l.map Prod.fst) (l.map Prod.snd) = false)
    (hne : l ≠ [])
    (hps : ∃ s3, apply_poly_step (active_counts_state s l) l ext = .ok s3) :
    ∃ s₁, set_active_time_intervals s l ext = .ok s₁ ∧
      s₁.exposure = durations_sum l - total_dead s l := by
  obtain ⟨a, as, rfl⟩ : ∃ a as, l = a :: as := by
    cases l with
    | nil => exact absurd rfl hne
    | cons a as => exact ⟨a, as, rfl⟩
  obtain ⟨s3, h3⟩ := hps
  obtain ⟨hd, ha⟩ := apply_poly_step_fields _ _ _ _ h3
  simp only [set_active_time_intervals, hov, Bool.false_eq_true, if_false,
    List.isEmpty_cons]
  rw [h3]
  refine ⟨_, rfl, ?_⟩
  show durations_sum (a :: as) - total_dead s3 (a :: as) = _
  rw [total_dead_congr s3 s (by exact hd) (by exact ha)]

theorem no_overlap_pair_symm : Symmetric no_overlap_pair := by
  intro a b hab
  exact hab.symm

/-- C5: for every non-overlapping active interval set (open-interval
pairwise disjointness, touching allowed), a successful
`set_active_time_intervals` computes
`exposure = sum of interval durations - dead time of events in the union
of the intervals` (with zero subtracted when no dead-time array was
supplied, see `total_dead`), any permutation of the interval arguments also
succeeds, and the resulting exposure is invariant under the permutation. -/
theorem set_active_exposure_spec (s : EventList) (ext : Externals)
    (l l' : List (ℚ × ℚ)) (s₁ : EventList)
    (hlt : ∀ p ∈ l, p.1 < p.2) (hno : NonOverlappingSet l) (hperm : l.Perm l')
    (h₁ : set_active_time_intervals s l ext = .ok s₁) :
    s₁.exposure = durations_sum l - total_dead s l ∧
    ∃ s₂, set_active_time_intervals s l' ext = .ok s₂ ∧ s₂.exposure = s₁.exposure := by
  obtain ⟨hov, hne, hps, hexp⟩ := set_active_ok_elim s l ext s₁ h₁
  refine ⟨hexp, ?_⟩
  have hlt' : ∀ p ∈ l', p.1 < p.2 := fun p hp => hlt p (hperm.mem_iff.mpr hp)
  have hno' : NonOverlappingSet l' :=
    (List.Perm.pairwise_iff (fun hab => no_overlap_pair_symm hab) hperm).mp hno
  have hov' := overlap_eq_false_of_nonOverlapping l' hlt' hno'
  have hne' : l' ≠ [] := by
    intro he
    rw [he] at hperm
    exact hne hperm.eq_nil
  have hacs : active_counts_state s l = active_counts_state s l' := by
    unfold active_counts_state
    rw [channel_counts_perm _ hperm]
  have hps' : ∃ s3, apply_poly_step (active_counts_state s l') l' ext = .ok s3 := by
    rw [← hacs]
    exact apply_poly_step_ok_transfer _ l l' ext hps
  obtain ⟨s₂, h₂, hexp₂⟩ := set_active_ok_intro s l' ext hov' hne' hps'
  refine ⟨s₂, h₂, ?_⟩
  rw [hexp₂, hexp, durations_sum_perm hperm, total_dead_perm s hperm]

/-- C5 witness: intervals (0,1), (2,3) on a fresh event list, and their
swap. -/
theorem set_active_exposure_spec_witness :
    ∃ s₁, set_active_time_intervals freshEventList [((0 : ℚ), 1), (2, 3)]
        trivialExternals = .ok s₁ ∧
      s₁.exposure = durations_sum [((0 : ℚ), 1), (2, 3)] -
        total_dead freshEventList [((0 : ℚ), 1), (2, 3)] ∧
      ∃ s₂, set_active_time_intervals freshEventList [((2 : ℚ), 3), (0, 1)]
          trivialExternals = .ok s₂ ∧ s₂.exposure = s₁.exposure := by
  refine ⟨(set_active_time_intervals freshEventList [((0 : ℚ), 1), (2, 3)]
    trivialExternals).state, rfl, ?_⟩
  have h := set_active_exposure_spec freshEventList trivialExternals
    [((0 : ℚ), 1), (2, 3)] [((2 : ℚ), 3), (0, 1)] _ (by decide) (by decide)
    (List.Perm.swap _ _ _) rfl
  exact ⟨h.1, h.2⟩

end ThreeML
